import Mathlib

/-!
Shallow embedding of the concurrent order mutation control subsystem of the
TWLKRTMS dispatcher console: status transition tables, version-gated mutation,
edit leases, batch execution, and the dashboard timestamp handlers.

Client-side logic is embedded from the JavaScript sources
(src/main/static/js/dashboard_batch_actions.js, src/main/static/js/order_form.js,
src/unnamed/part_010).  The server-side pieces (Lease Manager, Version Gate,
Mutation Applier, Batch Executor) are not present in the repository sources;
they are modelled from the specification, as marked on each definition.
-/

/-- Order status values, from init-db.sql and the client status enums. -/
inductive Status
  | WAITING
  | IN_PROGRESS
  | COMPLETE
  | ISSUE
  | CANCEL
deriving DecidableEq, Fintype

/-- Requester role tiers: standard (USER) and elevated (ADMIN). -/
inductive Role
  | USER
  | ADMIN
deriving DecidableEq, Fintype

namespace DashboardBatchActions

/-- Standard-role transition table, dashboard_batch_actions.js lines 43-50. -/
def statusTransitions : Status → List Status
  | Status.WAITING => [Status.IN_PROGRESS]
  | Status.IN_PROGRESS => [Status.COMPLETE, Status.ISSUE, Status.CANCEL]
  | Status.COMPLETE => [Status.ISSUE, Status.CANCEL]
  | Status.ISSUE => [Status.COMPLETE, Status.CANCEL]
  | Status.CANCEL => [Status.COMPLETE, Status.ISSUE]

/-- Elevated-role transition table, dashboard_batch_actions.js lines 51-58. -/
def adminStatusTransitions : Status → List Status
  | Status.WAITING => [Status.IN_PROGRESS]
  | Status.IN_PROGRESS => [Status.WAITING, Status.COMPLETE, Status.ISSUE, Status.CANCEL]
  | Status.COMPLETE => [Status.IN_PROGRESS, Status.ISSUE, Status.CANCEL]
  | Status.ISSUE => [Status.IN_PROGRESS, Status.COMPLETE, Status.CANCEL]
  | Status.CANCEL => [Status.IN_PROGRESS, Status.COMPLETE, Status.ISSUE]

end DashboardBatchActions

namespace OrderFormFirst

/-- Standard-role transition table, first copy in order_form.js lines 369-376. -/
def statusTransitions : Status → List Status
  | Status.WAITING => [Status.IN_PROGRESS, Status.ISSUE, Status.CANCEL]
  | Status.IN_PROGRESS => [Status.COMPLETE, Status.ISSUE, Status.CANCEL]
  | Status.COMPLETE => [Status.ISSUE, Status.CANCEL]
  | Status.ISSUE => [Status.COMPLETE, Status.CANCEL]
  | Status.CANCEL => [Status.COMPLETE, Status.ISSUE]

/-- Elevated-role transition table, first copy in order_form.js lines 377-385. -/
def adminStatusTransitions : Status → List Status
  | Status.WAITING => [Status.IN_PROGRESS, Status.ISSUE, Status.CANCEL]
  | Status.IN_PROGRESS => [Status.WAITING, Status.COMPLETE, Status.ISSUE, Status.CANCEL]
  | Status.COMPLETE => [Status.IN_PROGRESS, Status.ISSUE, Status.CANCEL]
  | Status.ISSUE => [Status.IN_PROGRESS, Status.COMPLETE, Status.CANCEL]
  | Status.CANCEL => [Status.IN_PROGRESS, Status.COMPLETE, Status.ISSUE]

end OrderFormFirst

namespace OrderFormSecond

/-- Standard-role transition table, second copy in order_form.js lines 661-668. -/
def statusTransitions : Status → List Status
  | Status.WAITING => [Status.IN_PROGRESS]
  | Status.IN_PROGRESS => [Status.COMPLETE, Status.ISSUE, Status.CANCEL]
  | Status.COMPLETE => [Status.ISSUE, Status.CANCEL]
  | Status.ISSUE => [Status.COMPLETE, Status.CANCEL]
  | Status.CANCEL => [Status.COMPLETE, Status.ISSUE]

/-- Elevated-role transition table, second copy in order_form.js lines 669-676. -/
def adminStatusTransitions : Status → List Status
  | Status.WAITING => [Status.IN_PROGRESS]
  | Status.IN_PROGRESS => [Status.WAITING, Status.COMPLETE, Status.ISSUE, Status.CANCEL]
  | Status.COMPLETE => [Status.IN_PROGRESS, Status.ISSUE, Status.CANCEL]
  | Status.ISSUE => [Status.IN_PROGRESS, Status.COMPLETE, Status.CANCEL]
  | Status.CANCEL => [Status.IN_PROGRESS, Status.COMPLETE, Status.ISSUE]

end OrderFormSecond

/-- Role-indexed lookup into the backend-authoritative table (the client tables
carry the comment that they must match the backend; the batch-actions copy is
used as that table). -/
def allowedNext (role : Role) (s : Status) : List Status :=
  match role with
  | Role.USER => DashboardBatchActions.statusTransitions s
  | Role.ADMIN => DashboardBatchActions.adminStatusTransitions s

/-- Order record, from the dashboard table of init-db.sql (status, version,
driver fields, last-editor metadata, departed/completed timestamps).
Timestamps are modelled as natural-number instants. -/
structure Order where
  status : Status
  version : Nat
  lastEditor : String
  lastEditedAt : Nat
  departTime : Option Nat
  completeTime : Option Nat
  driverName : Option String
  driverContact : Option String
deriving DecidableEq

/-- Result of the version-gate check-and-write. -/
structure CheckInfo where
  ok : Bool
  currentVersion : Nat
  currentEditor : String
  currentEditedAt : Nat
deriving DecidableEq

/-- Modelled from the spec: the Version Gate / order-store atomic
check-and-write (§4.2, §6 CommitWrite); the server implementation is not in
the repository sources (the client only round-trips the version through a
hidden form field, order_edit.js fillFormData).  ok exactly when the supplied
version equals the current version; on success the write commits with the
version incremented and the editor metadata recorded; on failure nothing is
written and the current version and last editor identity and timestamp are
returned. -/
def commitWrite (o : Order) (expectedVersion : Nat) (newFields : Order → Order)
    (editor : String) (now : Nat) : CheckInfo × Order :=
  if expectedVersion = o.version then
    ({ ok := true
       currentVersion := o.version + 1
       currentEditor := editor
       currentEditedAt := now },
     { newFields o with
       version := o.version + 1
       lastEditor := editor
       lastEditedAt := now })
  else
    ({ ok := false
       currentVersion := o.version
       currentEditor := o.lastEditor
       currentEditedAt := o.lastEditedAt }, o)

/-- Typed error kinds of the mutation applier. -/
inductive ErrorKind
  | IllegalTransition
  | VersionConflict
deriving DecidableEq

/-- Result of a single Mutate call. -/
structure MutateResult where
  success : Bool
  newVersion : Option Nat
  errorKind : Option ErrorKind
deriving DecidableEq

/-- A mutation request: optional status change, the version the caller read,
optional driver fields. -/
structure MutateReq where
  newStatus : Option Status
  expectedVersion : Nat
  driverName : Option String
  driverContact : Option String
deriving DecidableEq

/-- Modelled from the spec: field and set-once timestamp side effects of a
mutation (§4.3 step 4): moving into IN_PROGRESS sets the departed timestamp
if not already set; moving into COMPLETE or ISSUE sets the completed
timestamp if not already set. -/
def applyChanges (req : MutateReq) (now : Nat) (o : Order) : Order :=
  let o1 :=
    match req.newStatus with
    | some s =>
        { o with
          status := s
          departTime :=
            if s = Status.IN_PROGRESS ∧ o.departTime = none then some now
            else o.departTime
          completeTime :=
            if (s = Status.COMPLETE ∨ s = Status.ISSUE) ∧ o.completeTime = none
            then some now else o.completeTime }
    | none => o
  { o1 with
    driverName :=
      match req.driverName with
      | some d => some d
      | none => o1.driverName
    driverContact :=
      match req.driverContact with
      | some d => some d
      | none => o1.driverContact }

/-- Modelled from the spec: the Mutation Applier (§4.3); the server
implementation is not in the repository sources.  Transition legality is
checked first (only when the requested status differs from the current one),
then the version gate, then the side effects and the committed write. -/
def mutate (role : Role) (editor : String) (now : Nat) (req : MutateReq)
    (o : Order) : MutateResult × Order :=
  let illegal : Bool :=
    match req.newStatus with
    | some s => decide (s ≠ o.status ∧ s ∉ allowedNext role o.status)
    | none => false
  if illegal then
    ({ success := false
       newVersion := none
       errorKind := some ErrorKind.IllegalTransition }, o)
  else
    let r := commitWrite o req.expectedVersion (applyChanges req now) editor now
    if r.1.ok then
      ({ success := true
         newVersion := some r.1.currentVersion
         errorKind := none }, r.2)
    else
      ({ success := false
         newVersion := none
         errorKind := some ErrorKind.VersionConflict }, o)

/-- Sequentially apply a list of mutation requests to one order, returning the
final order and the number of successful mutations. -/
def runMutations (role : Role) (editor : String) (now : Nat)
    (reqs : List MutateReq) (o : Order) : Order × Nat :=
  match reqs with
  | [] => (o, 0)
  | req :: rest =>
      let r := mutate role editor now req o
      let rec2 := runMutations role editor now rest r.2
      (rec2.1, (if r.1.success then 1 else 0) + rec2.2)

/-- Edit lease record (orderId, holder, acquiredAt, expiresAt). -/
structure Lease where
  orderId : Nat
  holder : String
  acquiredAt : Nat
  expiresAt : Nat
deriving DecidableEq

/-- Result of a lease Acquire call. -/
structure AcquireResult where
  granted : Bool
  currentHolder : Option String
  leaseExpiresAt : Option Nat
deriving DecidableEq

/-- Modelled from the spec: the Lease Manager Acquire operation (§4.1); the
server implementation is not in the repository sources (the client only polls
the lock endpoint, order_edit.js refreshLock).  Grants when no lease exists
for the order id or the existing lease has expired (expiry is evaluated
lazily: a lease with now past expiresAt is treated as absent); otherwise
denies and returns the current holder.  Acquire calls on one order id
serialize on the lease table (§5), so concurrent acquires are modelled as
sequential calls at the same instant. -/
def acquire (t : Nat → Option Lease) (oid : Nat) (holder : String)
    (now ttl : Nat) : AcquireResult × (Nat → Option Lease) :=
  match t oid with
  | none =>
      ({ granted := true
         currentHolder := none
         leaseExpiresAt := some (now + ttl) },
       fun j => if j = oid then
         some { orderId := oid, holder := holder, acquiredAt := now, expiresAt := now + ttl }
       else t j)
  | some l =>
      if now > l.expiresAt then
        ({ granted := true
           currentHolder := none
           leaseExpiresAt := some (now + ttl) },
         fun j => if j = oid then
           some { orderId := oid, holder := holder, acquiredAt := now, expiresAt := now + ttl }
         else t j)
      else
        ({ granted := false
           currentHolder := some l.holder
           leaseExpiresAt := some l.expiresAt }, t)

/-- Per-id result entry of a batch run. -/
structure BatchItemResult where
  id : Nat
  success : Bool
  errorKind : Option ErrorKind
deriving DecidableEq

/-- Modelled from the spec: the Batch Executor (§4.4); the server
implementation is not in the repository sources (the client only posts the id
list, dashboard_batch_actions.js).  Each id is passed independently through
Mutate; one result entry per id, in order; no rollback or retry across ids. -/
def runBatch (role : Role) (editor : String) (now : Nat) (op : Nat → MutateReq)
    (store : Nat → Order) (ids : List Nat) : List BatchItemResult × (Nat → Order) :=
  match ids with
  | [] => ([], store)
  | id :: rest =>
      let r := mutate role editor now (op id) (store id)
      let store2 : Nat → Order := fun j => if j = id then r.2 else store j
      let rec2 := runBatch role editor now op store2 rest
      ({ id := id, success := r.1.success, errorKind := r.1.errorKind } :: rec2.1, rec2.2)

/-- Success count aggregation of the batch caller, dashboard_batch_actions.js
lines 395 and 488: results.filter success, length. -/
def successCount (results : List BatchItemResult) : Nat :=
  (results.filter fun r => r.success).length

/-- Failure count aggregation of the batch caller, dashboard_batch_actions.js
lines 396 and 489: results.length minus successCount. -/
def failCount (results : List BatchItemResult) : Nat :=
  results.length - successCount results

/-- One step of the loadAndSetStatusOptions scan, dashboard_batch_actions.js
lines 185-201: the accumulator is (firstStatus, allSameStatus); the first row
status is captured; any later row whose status differs flips allSameStatus to
false. -/
def allSameStep (p : Option Status × Bool) (s : Status) : Option Status × Bool :=
  match p.1 with
  | none => (some s, p.2)
  | some f => (some f, p.2 && decide (s = f))

/-- The whole loadAndSetStatusOptions scan, dashboard_batch_actions.js lines
182-201: firstStatus starts null, allSameStatus starts true. -/
def allSameStatusFold (rows : List Status) : Bool :=
  (rows.foldl allSameStep (none, true)).2

/-- Outcome of the batch status-change flow. -/
inductive BatchFlowResult
  | mixedStatusBatch
  | executed (results : List BatchItemResult)

/-- The batch status-change flow: the client-side mixed-status precheck of
loadAndSetStatusOptions (dashboard_batch_actions.js lines 203-209) rejects the
whole batch before any request is issued when the selected orders do not all
share one current status; otherwise the batch is executed per id. -/
def batchStatusUpdateFlow (role : Role) (editor : String) (now : Nat)
    (newStatus : Status) (expected : Nat → Nat) (store : Nat → Order)
    (ids : List Nat) : BatchFlowResult × (Nat → Order) :=
  if allSameStatusFold (ids.map fun id => (store id).status) then
    let r := runBatch role editor now
      (fun id => { newStatus := some newStatus
                   expectedVersion := expected id
                   driverName := none
                   driverContact := none })
      store ids
    (BatchFlowResult.executed r.1, r.2)
  else
    (BatchFlowResult.mixedStatusBatch, store)

/-- Dashboard item of the part_010 page: status, set-once timestamps, driver
fields (other business fields are opaque to the handlers embedded here). -/
structure DashboardItem where
  status : Status
  depart_time : Option Nat
  complete_time : Option Nat
  driver_name : Option String
  driver_contact : Option String
deriving DecidableEq

/-- Per-item update of DashboardPage.handleStatusChange, part_010 lines
727-748: updateData carries the new status; depart_time is added only when
moving to IN_PROGRESS with no depart_time yet; complete_time only when moving
to COMPLETE or ISSUE with no complete_time yet; updateData is then merged over
the item. -/
def handleStatusChangeUpdate (newStatus : Status) (now : Nat)
    (item : DashboardItem) : DashboardItem :=
  { item with
    status := newStatus
    depart_time :=
      if newStatus = Status.IN_PROGRESS ∧ item.depart_time = none then some now
      else item.depart_time
    complete_time :=
      if (newStatus = Status.COMPLETE ∨ newStatus = Status.ISSUE) ∧ item.complete_time = none
      then some now else item.complete_time }

/-- Status/timestamp part of the edit-order submit handler, part_010 lines
1135-1165: updateData always carries the chosen status; the timestamp logic
runs only when the chosen status differs from the current one, and then
matches handleStatusChange (set depart_time on IN_PROGRESS if unset,
complete_time on COMPLETE or ISSUE if unset). -/
def editOrderSubmitUpdate (status : Status) (now : Nat)
    (item : DashboardItem) : DashboardItem :=
  if status ≠ item.status then
    { item with
      status := status
      depart_time :=
        if status = Status.IN_PROGRESS ∧ item.depart_time = none then some now
        else item.depart_time
      complete_time :=
        if (status = Status.COMPLETE ∨ status = Status.ISSUE) ∧ item.complete_time = none
        then some now else item.complete_time }
  else
    { item with status := status }

/-- Sequential application of handleStatusChange updates (each with its own
instant) to one item. -/
def applyStatusChanges (changes : List (Status × Nat))
    (item : DashboardItem) : DashboardItem :=
  match changes with
  | [] => item
  | (s, t) :: rest => applyStatusChanges rest (handleStatusChangeUpdate s t item)

/-- DashboardPage.confirmAssign, part_010 lines 818-870: with an empty driver
name the handler warns and returns without updating; otherwise updateData sets
driver_name, driver_contact (empty contact becomes null), and depart_time to
the assignment instant, unconditionally and with no status field. -/
def confirmAssignUpdate (driverName driverContact : String) (now : Nat)
    (item : DashboardItem) : Option DashboardItem :=
  if driverName = "" then none
  else
    some { item with
           driver_name := some driverName
           driver_contact := if driverContact = "" then none else some driverContact
           depart_time := some now }

/-- Concrete sample order used by witnesses: WAITING, version 1, last edited
by A at instant 10. -/
def sampleOrder : Order :=
  { status := Status.WAITING
    version := 1
    lastEditor := "A"
    lastEditedAt := 10
    departTime := none
    completeTime := none
    driverName := none
    driverContact := none }

/-- Concrete sample dashboard item used by witnesses. -/
def sampleItem : DashboardItem :=
  { status := Status.WAITING
    depart_time := none
    complete_time := none
    driver_name := none
    driver_contact := none }

/-- C1: the version-gate check-and-write succeeds exactly when the supplied
version equals the order's current version; on success the committed write
increments the version; on failure no write occurs (the order is unchanged in
every field) and the result carries the current version and the last editor's
identity and timestamp. -/
theorem commitWrite_version_gate (o : Order) (expectedVersion : Nat)
    (newFields : Order → Order) (editor : String) (now : Nat) :
    ((commitWrite o expectedVersion newFields editor now).1.ok = true ↔
      expectedVersion = o.version) ∧
    ((commitWrite o expectedVersion newFields editor now).1.ok = true →
      (commitWrite o expectedVersion newFields editor now).2.version = o.version + 1) ∧
    ((commitWrite o expectedVersion newFields editor now).1.ok = false →
      (commitWrite o expectedVersion newFields editor now).2 = o ∧
      (commitWrite o expectedVersion newFields editor now).1.currentVersion = o.version ∧
      (commitWrite o expectedVersion newFields editor now).1.currentEditor = o.lastEditor ∧
      (commitWrite o expectedVersion newFields editor now).1.currentEditedAt = o.lastEditedAt) := by
  unfold commitWrite
  by_cases h : expectedVersion = o.version <;> simp [h]

/-- C1 witness: a stale write (supplied version 5 against current version 1)
is refused, leaves the order untouched, and reports editor A at instant 10. -/
theorem commitWrite_version_gate_witness :
    (commitWrite sampleOrder 5 id "B" 20).1.ok = false ∧
    (commitWrite sampleOrder 5 id "B" 20).2 = sampleOrder ∧
    (commitWrite sampleOrder 5 id "B" 20).1.currentVersion = 1 ∧
    (commitWrite sampleOrder 5 id "B" 20).1.currentEditor = "A" ∧
    (commitWrite sampleOrder 5 id "B" 20).1.currentEditedAt = 10 := by
  have h := commitWrite_version_gate sampleOrder 5 id "B" 20
  have hok : (commitWrite sampleOrder 5 id "B" 20).1.ok = false := by decide
  have h3 := h.2.2 hok
  exact ⟨hok, h3.1, h3.2.1, h3.2.2.1, h3.2.2.2⟩

/-- The transitions present for the elevated role and absent for the standard
role, claimed to be exactly the four reverting ones. -/
def revertingPairs : List (Status × Status) :=
  [(Status.IN_PROGRESS, Status.WAITING), (Status.COMPLETE, Status.IN_PROGRESS),
   (Status.ISSUE, Status.IN_PROGRESS), (Status.CANCEL, Status.IN_PROGRESS)]

/-- C8: in each of the three transition-table copies, the standard role's
allowed set at every status is a subset of the elevated role's set, the
standard table as a whole is a strict subset, and the pairs present for the
elevated role but not the standard role are exactly the reverting transitions
IN_PROGRESS to WAITING and COMPLETE, ISSUE, CANCEL to IN_PROGRESS. -/
theorem admin_transitions_extend_user :
    ((∀ s x, x ∈ DashboardBatchActions.statusTransitions s →
        x ∈ DashboardBatchActions.adminStatusTransitions s) ∧
     (∃ s x, x ∈ DashboardBatchActions.adminStatusTransitions s ∧
        x ∉ DashboardBatchActions.statusTransitions s) ∧
     (∀ s x, (x ∈ DashboardBatchActions.adminStatusTransitions s ∧
        x ∉ DashboardBatchActions.statusTransitions s) ↔ (s, x) ∈ revertingPairs)) ∧
    ((∀ s x, x ∈ OrderFormFirst.statusTransitions s →
        x ∈ OrderFormFirst.adminStatusTransitions s) ∧
     (∃ s x, x ∈ OrderFormFirst.adminStatusTransitions s ∧
        x ∉ OrderFormFirst.statusTransitions s) ∧
     (∀ s x, (x ∈ OrderFormFirst.adminStatusTransitions s ∧
        x ∉ OrderFormFirst.statusTransitions s) ↔ (s, x) ∈ revertingPairs)) ∧
    ((∀ s x, x ∈ OrderFormSecond.statusTransitions s →
        x ∈ OrderFormSecond.adminStatusTransitions s) ∧
     (∃ s x, x ∈ OrderFormSecond.adminStatusTransitions s ∧
        x ∉ OrderFormSecond.statusTransitions s) ∧
     (∀ s x, (x ∈ OrderFormSecond.adminStatusTransitions s ∧
        x ∉ OrderFormSecond.statusTransitions s) ↔ (s, x) ∈ revertingPairs)) := by
  exact ⟨⟨by decide, by decide, by decide⟩, ⟨by decide, by decide, by decide⟩,
    by decide, by decide, by decide⟩

/-- C9 counterexample: the first order-form copy of the standard-role table
allows WAITING to ISSUE, while the batch-actions copy and the second
order-form copy do not, so the encodings do not all denote the same mapping. -/
theorem statusTransitions_copies_differ :
    Status.ISSUE ∈ OrderFormFirst.statusTransitions Status.WAITING ∧
    Status.ISSUE ∉ DashboardBatchActions.statusTransitions Status.WAITING ∧
    Status.ISSUE ∉ OrderFormSecond.statusTransitions Status.WAITING := by
  decide

/-- C9 amended: the batch-actions tables and the second order-form copy are
equal as mappings for both roles at every status; the first order-form copy
agrees with them at every status except WAITING, where for both roles it
additionally allows ISSUE and CANCEL besides IN_PROGRESS. -/
theorem statusTransitions_copies_agreement :
    (∀ s, OrderFormSecond.statusTransitions s = DashboardBatchActions.statusTransitions s) ∧
    (∀ s, OrderFormSecond.adminStatusTransitions s = DashboardBatchActions.adminStatusTransitions s) ∧
    (∀ s, s ≠ Status.WAITING →
      OrderFormFirst.statusTransitions s = DashboardBatchActions.statusTransitions s) ∧
    (∀ s, s ≠ Status.WAITING →
      OrderFormFirst.adminStatusTransitions s = DashboardBatchActions.adminStatusTransitions s) ∧
    OrderFormFirst.statusTransitions Status.WAITING =
      [Status.IN_PROGRESS, Status.ISSUE, Status.CANCEL] ∧
    OrderFormFirst.adminStatusTransitions Status.WAITING =
      [Status.IN_PROGRESS, Status.ISSUE, Status.CANCEL] := by
  decide

/-- C9 amended witness: at COMPLETE (distinct from WAITING) the first
order-form copy agrees with the batch-actions copy. -/
theorem statusTransitions_copies_agreement_witness :
    Status.COMPLETE ≠ Status.WAITING ∧
    OrderFormFirst.statusTransitions Status.COMPLETE =
      DashboardBatchActions.statusTransitions Status.COMPLETE := by
  exact ⟨by decide, statusTransitions_copies_agreement.2.2.1 Status.COMPLETE (by decide)⟩

/-- C10: confirming a single driver assignment with a nonempty driver name
always sets depart_time to the assignment instant — overwriting a departed
timestamp that is already set — while leaving status and complete_time
untouched; the empty-name case performs no update at all. -/
theorem confirmAssignUpdate_overwrites_depart_time (driverName driverContact : String)
    (now : Nat) (item : DashboardItem) (h : driverName ≠ "") :
    ∃ u, confirmAssignUpdate driverName driverContact now item = some u ∧
      u.depart_time = some now ∧
      u.status = item.status ∧
      u.complete_time = item.complete_time ∧
      u.driver_name = some driverName := by
  refine ⟨{ item with
            driver_name := some driverName
            driver_contact := if driverContact = "" then none else some driverContact
            depart_time := some now }, ?_, rfl, rfl, rfl, rfl⟩
  simp [confirmAssignUpdate, h]

/-- C10 witness: an item whose departed timestamp is already 5 has it
overwritten to the assignment instant 9, with its status unchanged. -/
theorem confirmAssignUpdate_overwrites_depart_time_witness :
    ("Kim" : String) ≠ "" ∧
    (∃ u, confirmAssignUpdate "Kim" "" 9
        { sampleItem with depart_time := some 5 } = some u ∧
      u.depart_time = some 9 ∧
      u.status = ({ sampleItem with depart_time := some 5 } : DashboardItem).status ∧
      u.complete_time = ({ sampleItem with depart_time := some 5 } : DashboardItem).complete_time ∧
      u.driver_name = some "Kim") := by
  exact ⟨by decide,
    confirmAssignUpdate_overwrites_depart_time "Kim" "" 9
      { sampleItem with depart_time := some 5 } (by decide)⟩

/-- C5: in both dashboard handlers a status change into IN_PROGRESS sets the
departed timestamp only if it is not already set, and a change into COMPLETE
or ISSUE sets the completed timestamp only if it is not already set; once set
the timestamps survive every later status change, so the sequence WAITING to
IN_PROGRESS to WAITING to IN_PROGRESS sets the departed timestamp only on the
first occurrence. -/
theorem status_timestamps_set_once :
    (∀ s now t item, item.depart_time = some t →
      (handleStatusChangeUpdate s now item).depart_time = some t) ∧
    (∀ s now t item, item.complete_time = some t →
      (handleStatusChangeUpdate s now item).complete_time = some t) ∧
    (∀ now item, item.depart_time = none →
      (handleStatusChangeUpdate Status.IN_PROGRESS now item).depart_time = some now) ∧
    (∀ now item, item.complete_time = none →
      (handleStatusChangeUpdate Status.COMPLETE now item).complete_time = some now ∧
      (handleStatusChangeUpdate Status.ISSUE now item).complete_time = some now) ∧
    (∀ s now t item, item.depart_time = some t →
      (editOrderSubmitUpdate s now item).depart_time = some t) ∧
    (∀ s now t item, item.complete_time = some t →
      (editOrderSubmitUpdate s now item).complete_time = some t) ∧
    (∀ now item, item.depart_time = none → item.status ≠ Status.IN_PROGRESS →
      (editOrderSubmitUpdate Status.IN_PROGRESS now item).depart_time = some now) ∧
    (∀ t1 t2 t3 item, item.depart_time = none →
      (applyStatusChanges
        [(Status.IN_PROGRESS, t1), (Status.WAITING, t2), (Status.IN_PROGRESS, t3)]
        item).depart_time = some t1) := by
  refine ⟨?_, ?_, ?_, ?_, ?_, ?_, ?_, ?_⟩
  · intro s now t item h
    simp [handleStatusChangeUpdate, h]
  · intro s now t item h
    simp [handleStatusChangeUpdate, h]
  · intro now item h
    simp [handleStatusChangeUpdate, h]
  · intro now item h
    constructor <;> simp [handleStatusChangeUpdate, h]
  · intro s now t item h
    unfold editOrderSubmitUpdate
    split <;> simp [h]
  · intro s now t item h
    unfold editOrderSubmitUpdate
    split <;> simp [h]
  · intro now item h hs
    have hs2 : Status.IN_PROGRESS ≠ item.status := fun he => hs he.symm
    simp [editOrderSubmitUpdate, hs2, h]
  · intro t1 t2 t3 item h
    simp [applyStatusChanges, handleStatusChangeUpdate, h]

/-- C5 witness: a waiting item with no timestamps goes through IN_PROGRESS at
instant 3, WAITING at instant 6, IN_PROGRESS at instant 9, and keeps the
departed timestamp from the first occurrence. -/
theorem status_timestamps_set_once_witness :
    sampleItem.depart_time = none ∧
    (applyStatusChanges
      [(Status.IN_PROGRESS, 3), (Status.WAITING, 6), (Status.IN_PROGRESS, 9)]
      sampleItem).depart_time = some 3 := by
  exact ⟨rfl, status_timestamps_set_once.2.2.2.2.2.2.2 3 6 9 sampleItem rfl⟩

/-- C4: a Mutate whose requested status differs from the current status and is
outside the transition table's allowed set for the requester's role is
rejected with IllegalTransition and leaves the order (in particular its
version) unchanged; the statement holds for every supplied expected version,
so a request that is both stale and illegal reports IllegalTransition, never
VersionConflict. -/
theorem mutate_illegal_transition (role : Role) (editor : String) (now : Nat)
    (req : MutateReq) (o : Order) (s : Status) (h1 : req.newStatus = some s)
    (h2 : s ≠ o.status) (h3 : s ∉ allowedNext role o.status) :
    (mutate role editor now req o).1.success = false ∧
    (mutate role editor now req o).1.errorKind = some ErrorKind.IllegalTransition ∧
    (mutate role editor now req o).2 = o := by
  simp [mutate, h1, h2, h3]

/-- C4 witness: a standard-role request moving a WAITING order straight to
COMPLETE with a stale expected version (99 against current version 1) is
rejected as IllegalTransition, not VersionConflict, and the order is
unchanged. -/
theorem mutate_illegal_transition_witness :
    ({ newStatus := some Status.COMPLETE
       expectedVersion := 99
       driverName := none
       driverContact := none } : MutateReq).newStatus = some Status.COMPLETE ∧
    Status.COMPLETE ≠ sampleOrder.status ∧
    Status.COMPLETE ∉ allowedNext Role.USER sampleOrder.status ∧
    ((mutate Role.USER "B" 20
        { newStatus := some Status.COMPLETE
          expectedVersion := 99
          driverName := none
          driverContact := none } sampleOrder).1.success = false ∧
     (mutate Role.USER "B" 20
        { newStatus := some Status.COMPLETE
          expectedVersion := 99
          driverName := none
          driverContact := none } sampleOrder).1.errorKind =
            some ErrorKind.IllegalTransition ∧
     (mutate Role.USER "B" 20
        { newStatus := some Status.COMPLETE
          expectedVersion := 99
          driverName := none
          driverContact := none } sampleOrder).2 = sampleOrder) := by
  refine ⟨rfl, by decide, by decide, ?_⟩
  exact mutate_illegal_transition Role.USER "B" 20 _ sampleOrder Status.COMPLETE
    rfl (by decide) (by decide)

/-- A mutation whose supplied version is stale fails. -/
theorem mutate_fail_of_ne (role : Role) (editor : String) (now : Nat)
    (req : MutateReq) (o : Order) (hv : req.expectedVersion ≠ o.version) :
    (mutate role editor now req o).1.success = false := by
  rcases hs : req.newStatus with _ | s <;>
    simp [mutate, commitWrite, hv, hs] <;> split_ifs
  all_goals rfl

/-- A successful mutation can only have supplied the order's current version. -/
theorem mutate_success_expected (role : Role) (editor : String) (now : Nat)
    (req : MutateReq) (o : Order)
    (h : (mutate role editor now req o).1.success = true) :
    req.expectedVersion = o.version := by
  by_cases hv : req.expectedVersion = o.version
  · exact hv
  · rw [mutate_fail_of_ne role editor now req o hv] at h
    cases h

/-- A committed mutation increments the version by exactly one and a rejected
one leaves the version unchanged. -/
theorem mutate_version_delta (role : Role) (editor : String) (now : Nat)
    (req : MutateReq) (o : Order) :
    (mutate role editor now req o).2.version =
      o.version + (if (mutate role editor now req o).1.success then 1 else 0) := by
  by_cases hv : req.expectedVersion = o.version <;>
    rcases hs : req.newStatus with _ | s <;>
      simp [mutate, commitWrite, hv, hs] <;> split_ifs <;> simp_all

/-- C2: for every order and every sequence of mutation requests, the final
version equals the initial version plus the number of successful mutations
(each committed write adds exactly 1, no gaps or repeats), and of two writes
that observed the same pre-write version the second cannot also succeed. -/
theorem version_monotonicity :
    (∀ role editor now reqs o,
      (runMutations role editor now reqs o).1.version =
        o.version + (runMutations role editor now reqs o).2) ∧
    (∀ role editor now req1 req2 o,
      req2.expectedVersion = req1.expectedVersion →
      (mutate role editor now req1 o).1.success = true →
      (mutate role editor now req2 (mutate role editor now req1 o).2).1.success = false) := by
  constructor
  · intro role editor now reqs o
    induction reqs generalizing o with
    | nil => simp [runMutations]
    | cons req rest ih =>
      have hd := mutate_version_delta role editor now req o
      simp only [runMutations]
      rw [ih]
      cases hsucc : (mutate role editor now req o).1.success <;>
        simp [hsucc] at hd ⊢ <;> omega
  · intro role editor now req1 req2 o he hs
    have h1 := mutate_success_expected role editor now req1 o hs
    have hd := mutate_version_delta role editor now req1 o
    rw [hs] at hd
    simp at hd
    apply mutate_fail_of_ne
    omega

/-- C2 witness: two successful field-only mutations take the sample order from
version 1 to version 3 with success count 2, and a second write supplying the
same pre-write version 1 as a first successful write fails. -/
theorem version_monotonicity_witness :
    (runMutations Role.USER "B" 20
      [{ newStatus := none, expectedVersion := 1, driverName := none, driverContact := none },
       { newStatus := none, expectedVersion := 2, driverName := none, driverContact := none }]
      sampleOrder).1.version =
      sampleOrder.version +
        (runMutations Role.USER "B" 20
          [{ newStatus := none, expectedVersion := 1, driverName := none, driverContact := none },
           { newStatus := none, expectedVersion := 2, driverName := none, driverContact := none }]
          sampleOrder).2 ∧
    ({ newStatus := none, expectedVersion := 1, driverName := none, driverContact := none } : MutateReq).expectedVersion =
      ({ newStatus := none, expectedVersion := 1, driverName := none, driverContact := none } : MutateReq).expectedVersion ∧
    (mutate Role.USER "B" 20
      { newStatus := none, expectedVersion := 1, driverName := none, driverContact := none }
      sampleOrder).1.success = true ∧
    (mutate Role.USER "B" 20
      { newStatus := none, expectedVersion := 1, driverName := none, driverContact := none }
      (mutate Role.USER "B" 20
        { newStatus := none, expectedVersion := 1, driverName := none, driverContact := none }
        sampleOrder).2).1.success = false := by
  refine ⟨version_monotonicity.1 Role.USER "B" 20 _ sampleOrder, rfl, by decide, ?_⟩
  exact version_monotonicity.2 Role.USER "B" 20 _ _ sampleOrder rfl (by decide)

/-- C3: an Acquire grants exactly when no lease is recorded for the order id
or the recorded lease has expired; otherwise it denies, returns the current
holder's identity, and changes nothing; and of two serialized Acquire calls
from different holders at the same instant on a free order, exactly the first
is granted and the second is told the first holder now owns the lease. -/
theorem acquire_at_most_one_lease :
    (∀ t oid holder now ttl,
      ((acquire t oid holder now ttl).1.granted = true ↔
        (t oid = none ∨ ∃ l, t oid = some l ∧ now > l.expiresAt))) ∧
    (∀ t oid holder now ttl l, t oid = some l → ¬ now > l.expiresAt →
      (acquire t oid holder now ttl).1.granted = false ∧
      (acquire t oid holder now ttl).1.currentHolder = some l.holder ∧
      (acquire t oid holder now ttl).2 = t) ∧
    (∀ t oid hA hB now ttl, (∀ l, t oid = some l → now > l.expiresAt) →
      (acquire t oid hA now ttl).1.granted = true ∧
      (acquire (acquire t oid hA now ttl).2 oid hB now ttl).1.granted = false ∧
      (acquire (acquire t oid hA now ttl).2 oid hB now ttl).1.currentHolder = some hA) := by
  refine ⟨?_, ?_, ?_⟩
  · intro t oid holder now ttl
    rcases h : t oid with _ | l <;> simp [acquire, h]
    split_ifs with hgt <;> simp [hgt]
  · intro t oid holder now ttl l h hn
    simp [acquire, h, hn]
  · intro t oid hA hB now ttl hfree
    have hng : ¬ now > now + ttl := by omega
    rcases h : t oid with _ | l
    · refine ⟨by simp [acquire, h], ?_, ?_⟩ <;>
        simp [acquire, h, hng]
    · have hgt := hfree l h
      refine ⟨by simp [acquire, h, hgt], ?_, ?_⟩ <;>
        simp [acquire, h, hgt, hng]

/-- The empty lease table used by witnesses. -/
def emptyLeases : Nat → Option Lease := fun _ => none

/-- C3 witness: on an empty lease table, holder A's acquire of order 1 at
instant 0 with TTL 300 is granted and holder B's acquire at the same instant
is denied with A reported as the current holder. -/
theorem acquire_at_most_one_lease_witness :
    (∀ l, emptyLeases 1 = some l → 0 > l.expiresAt) ∧
    (acquire emptyLeases 1 "A" 0 300).1.granted = true ∧
    (acquire (acquire emptyLeases 1 "A" 0 300).2 1 "B" 0 300).1.granted = false ∧
    (acquire (acquire emptyLeases 1 "A" 0 300).2 1 "B" 0 300).1.currentHolder = some "A" := by
  have hfree : ∀ l, emptyLeases 1 = some l → 0 > l.expiresAt := by
    intro l h
    simp [emptyLeases] at h
  have h := acquire_at_most_one_lease.2.2 emptyLeases 1 "A" "B" 0 300 hfree
  exact ⟨hfree, h.1, h.2.1, h.2.2⟩

/-- The loadAndSetStatusOptions scan applied after a first row fixes the
first-seen status: the remaining rows must all equal it. -/
theorem allSameStep_foldl (rest : List Status) : ∀ f b,
    (rest.foldl allSameStep (some f, b)).2 = (b && rest.all fun s => decide (s = f)) := by
  induction rest with
  | nil => intro f b; simp
  | cons s rest ih =>
    intro f b
    simp only [List.foldl_cons, List.all_cons]
    rw [show allSameStep (some f, b) s = (some f, b && decide (s = f)) from rfl, ih]
    rw [Bool.and_assoc]

/-- The loadAndSetStatusOptions scan returns true exactly when all row
statuses are pairwise equal. -/
theorem allSameStatusFold_iff (rows : List Status) :
    allSameStatusFold rows = true ↔ ∀ a ∈ rows, ∀ b ∈ rows, a = b := by
  cases rows with
  | nil => simp [allSameStatusFold]
  | cons r rest =>
    have h1 : allSameStatusFold (r :: rest) = rest.all fun s => decide (s = r) := by
      simp only [allSameStatusFold, List.foldl_cons]
      rw [show allSameStep (none, true) r = (some r, true) from rfl, allSameStep_foldl]
      simp
    rw [h1]
    simp only [List.all_eq_true, decide_eq_true_eq]
    constructor
    · intro h a ha b hb
      rcases List.mem_cons.mp ha with rfl | ha2
      · rcases List.mem_cons.mp hb with rfl | hb2
        · rfl
        · exact (h b hb2).symm
      · rcases List.mem_cons.mp hb with rfl | hb2
        · exact h a ha2
        · rw [h a ha2, h b hb2]
    · intro h x hx
      exact h x (List.mem_cons_of_mem r hx) r (List.mem_cons_self r rest)

/-- C6: a batch status-change request over selected orders that do not all
share one current status is rejected wholesale as MixedStatusBatch before any
per-item work, and the store is left completely unchanged. -/
theorem mixed_status_batch_rejected (role : Role) (editor : String) (now : Nat)
    (newStatus : Status) (expected : Nat → Nat) (store : Nat → Order)
    (ids : List Nat) (a b : Nat) (ha : a ∈ ids) (hb : b ∈ ids)
    (hne : (store a).status ≠ (store b).status) :
    batchStatusUpdateFlow role editor now newStatus expected store ids =
      (BatchFlowResult.mixedStatusBatch, store) := by
  have hfalse : ¬ (allSameStatusFold (ids.map fun id => (store id).status) = true) := by
    intro hall
    exact hne ((allSameStatusFold_iff _).mp hall ((store a).status)
      (List.mem_map_of_mem _ ha) ((store b).status) (List.mem_map_of_mem _ hb))
  simp [batchStatusUpdateFlow, hfalse]

/-- Store with order 1 WAITING and every other order COMPLETE, used by
witnesses. -/
def mixedStore : Nat → Order := fun id =>
  if id = 1 then sampleOrder else { sampleOrder with status := Status.COMPLETE }

/-- C6 witness: a batch over one WAITING and one COMPLETE order is rejected
as MixedStatusBatch with the store untouched. -/
theorem mixed_status_batch_rejected_witness :
    1 ∈ ([1, 2] : List Nat) ∧ 2 ∈ ([1, 2] : List Nat) ∧
    (mixedStore 1).status ≠ (mixedStore 2).status ∧
    batchStatusUpdateFlow Role.USER "A" 0 Status.CANCEL (fun _ => 1) mixedStore [1, 2] =
      (BatchFlowResult.mixedStatusBatch, mixedStore) := by
  refine ⟨by decide, by decide, by decide, ?_⟩
  exact mixed_status_batch_rejected Role.USER "A" 0 Status.CANCEL (fun _ => 1)
    mixedStore [1, 2] 1 2 (by decide) (by decide) (by decide)

/-- A batch run never writes to an order id outside the requested id list. -/
theorem runBatch_untouched (role : Role) (editor : String) (now : Nat)
    (op : Nat → MutateReq) : ∀ (ids : List Nat) (store : Nat → Order) (j : Nat),
    j ∉ ids → (runBatch role editor now op store ids).2 j = store j := by
  intro ids
  induction ids with
  | nil => intro store j hj; simp [runBatch]
  | cons id rest ih =>
    intro store j hj
    have hne : j ≠ id := fun h => hj (h ▸ List.mem_cons_self id rest)
    simp only [runBatch]
    rw [ih _ j (fun h => hj (List.mem_cons_of_mem _ h))]
    simp [hne]

/-- C7: a batch run returns exactly one result entry per requested id, in
request order (so never a single aggregate result); with distinct ids each
order's final state and result entry are those of its own independent Mutate
on its own initial record, unaffected by failures elsewhere in the batch; and
the caller's reported counts satisfy successCount equals the number of
entries with success true and failCount equals the array length minus
successCount, which is the number of entries with success false. -/
theorem batch_per_item_results :
    (∀ (role : Role) (editor : String) (now : Nat) (op : Nat → MutateReq)
       (store : Nat → Order) (ids : List Nat),
      ((runBatch role editor now op store ids).1.map fun r => r.id) = ids) ∧
    (∀ (role : Role) (editor : String) (now : Nat) (op : Nat → MutateReq)
       (ids : List Nat) (store : Nat → Order), ids.Nodup → ∀ id ∈ ids,
      (runBatch role editor now op store ids).2 id =
        (mutate role editor now (op id) (store id)).2 ∧
      ({ id := id
         success := (mutate role editor now (op id) (store id)).1.success
         errorKind := (mutate role editor now (op id) (store id)).1.errorKind } : BatchItemResult)
        ∈ (runBatch role editor now op store ids).1) ∧
    (∀ results : List BatchItemResult,
      successCount results = (results.filter fun r => r.success).length ∧
      failCount results = results.length - successCount results ∧
      failCount results = (results.filter fun r => !r.success).length) := by
  refine ⟨?_, ?_, ?_⟩
  · intro role editor now op store ids
    induction ids generalizing store with
    | nil => simp [runBatch]
    | cons id rest ih => simp [runBatch, ih]
  · intro role editor now op ids
    induction ids with
    | nil =>
      intro store hnd id hid
      exact absurd hid (List.not_mem_nil id)
    | cons hd rest ih =>
      intro store hnd id hid
      have hnotmem : hd ∉ rest := (List.nodup_cons.mp hnd).1
      have hndrest : rest.Nodup := (List.nodup_cons.mp hnd).2
      rcases List.mem_cons.mp hid with rfl | hmem
      · constructor
        · simp only [runBatch]
          rw [runBatch_untouched role editor now op rest _ id hnotmem]
          simp
        · simp only [runBatch]
          exact List.mem_cons_self _ _
      · have hne : id ≠ hd := fun h => hnotmem (h ▸ hmem)
        simp only [runBatch]
        have h2 := ih
          (fun j => if j = hd then (mutate role editor now (op hd) (store hd)).2 else store j)
          hndrest id hmem
        simp only [hne, if_false, ite_false] at h2
        exact ⟨h2.1, List.mem_cons_of_mem _ h2.2⟩
  · have hsplit : ∀ results : List BatchItemResult,
        successCount results + (results.filter fun r => !r.success).length =
          results.length := by
      intro results
      induction results with
      | nil => simp [successCount]
      | cons r rest ih =>
        simp only [successCount, List.filter_cons, List.length_cons] at ih ⊢
        cases hr : r.success <;> simp [hr] <;> omega
    intro results
    refine ⟨rfl, rfl, ?_⟩
    have := hsplit results
    have hle : successCount results ≤ results.length := by omega
    simp only [failCount]
    omega

/-- The field-only mutation request used by witnesses. -/
def sampleReq : MutateReq :=
  { newStatus := none
    expectedVersion := 1
    driverName := none
    driverContact := none }

/-- C7 witness: over the two-order store, a batch on the distinct ids 1 and 2
gives order 1 exactly the state and result entry of its own single Mutate. -/
theorem batch_per_item_results_witness :
    ([1, 2] : List Nat).Nodup ∧ 1 ∈ ([1, 2] : List Nat) ∧
    ((runBatch Role.USER "B" 20 (fun _ => sampleReq) mixedStore [1, 2]).2 1 =
      (mutate Role.USER "B" 20 sampleReq (mixedStore 1)).2 ∧
    ({ id := 1
       success := (mutate Role.USER "B" 20 sampleReq (mixedStore 1)).1.success
       errorKind := (mutate Role.USER "B" 20 sampleReq (mixedStore 1)).1.errorKind } : BatchItemResult)
      ∈ (runBatch Role.USER "B" 20 (fun _ => sampleReq) mixedStore [1, 2]).1) := by
  refine ⟨by decide, by decide, ?_⟩
  exact batch_per_item_results.2.1 Role.USER "B" 20 (fun _ => sampleReq) [1, 2]
    mixedStore (by decide) 1 (by decide)
